import Mathlib

/-!
Verification of the msp430-quickstart timer examples.

The development shallowly embeds the two example programs
(`examples/timer-oncecell.rs` and `examples/timer-unsafe.rs`) of the
msp430-quickstart repository.  Peripheral registers are modelled as natural
numbers inside a `Device` record; each register read-modify-write of the
source is one element of an explicit program (a list of register updates),
from which both the final device state and the trace of written values are
computed.  The externally-provided primitives (`Peripherals::take`,
`Peripherals::steal`, `once_cell::unsync::OnceCell`, `msp430::interrupt::free`)
are not part of the repository sources, so they are modelled from the
specification, as marked in their doc comments.
-/

/-- Set bit `i` of register value `r` (svd2rust `set_bit`). -/
def setBit (r i : Nat) : Nat := r ||| 2 ^ i

/-- Drop from `r` every bit that is set in the mask `m`
(kernel-reducible counterpart of `Nat.ldiff r m`). -/
def maskClear (r m : Nat) : Nat := r ^^^ (r &&& m)

/-- Clear bit `i` of register value `r` (svd2rust `clear_bit`). -/
def clrBit (r i : Nat) : Nat := maskClear r (2 ^ i)

/-- Write boolean `b` into bit `i` of register value `r` (svd2rust `bit(b)`). -/
def assignBit (r i : Nat) (b : Bool) : Nat := if b then setBit r i else clrBit r i

/-- Write value `v` into the `w`-bit wide field at offset `off` of register
value `r` (svd2rust enumerated field writers such as `lfxt1s_2()`). -/
def setField (r off w v : Nat) : Nat := maskClear r ((2 ^ w - 1) <<< off) ||| v <<< off

/-- The peripheral registers touched by the examples, each an unbounded
natural standing for the register's current contents. -/
structure Device where
  wdtctl : Nat
  p1dir : Nat
  p1out : Nat
  bcsctl3 : Nat
  bcsctl1 : Nat
  ta0ccr0 : Nat
  ta0ctl : Nat
  ta0cctl1 : Nat
  ta0ccr1 : Nat
deriving Repr, DecidableEq

/-- The reset device state used for concrete end-to-end runs. -/
def resetDevice : Device := ⟨0, 0, 0, 0, 0, 0, 0, 0, 0⟩

/-- Names of the modelled registers, for write traces. -/
inductive Reg where
  | wdtctl | p1dir | p1out | bcsctl3 | bcsctl1 | ta0ccr0 | ta0ctl | ta0cctl1 | ta0ccr1
deriving Repr, DecidableEq

/-- Read the named register. -/
def Reg.read (d : Device) : Reg → Nat
  | .wdtctl => d.wdtctl
  | .p1dir => d.p1dir
  | .p1out => d.p1out
  | .bcsctl3 => d.bcsctl3
  | .bcsctl1 => d.bcsctl1
  | .ta0ccr0 => d.ta0ccr0
  | .ta0ctl => d.ta0ctl
  | .ta0cctl1 => d.ta0cctl1
  | .ta0ccr1 => d.ta0ccr1

/-- Store value `v` into the named register. -/
def Reg.store (d : Device) (v : Nat) : Reg → Device
  | .wdtctl => { d with wdtctl := v }
  | .p1dir => { d with p1dir := v }
  | .p1out => { d with p1out := v }
  | .bcsctl3 => { d with bcsctl3 := v }
  | .bcsctl1 => { d with bcsctl1 := v }
  | .ta0ccr0 => { d with ta0ccr0 := v }
  | .ta0ctl => { d with ta0ctl := v }
  | .ta0cctl1 => { d with ta0cctl1 := v }
  | .ta0ccr1 => { d with ta0ccr1 := v }

/-- One register read-modify-write: which register, and the new contents as a
function of the old contents (for svd2rust `write`, the function ignores its
argument). -/
abbrev RegWrite := Reg × (Nat → Nat)

/-- Execute one read-modify-write on the device. -/
def regStep (d : Device) (rw : RegWrite) : Device :=
  Reg.store d (rw.2 (Reg.read d rw.1)) rw.1

/-- Execute a straight-line register program. -/
def runProg (d : Device) (p : List RegWrite) : Device :=
  p.foldl regStep d

/-- The trace of a straight-line register program: the registers written, in
order, with the value each write stores. -/
def progTrace (d : Device) : List RegWrite → List (Reg × Nat)
  | [] => []
  | rw :: rws => (rw.1, rw.2 (Reg.read d rw.1)) :: progTrace (regStep d rw) rws

/-- The register writes of `main` in `timer-oncecell.rs` (lines 47-68), one
list element per source `write`/`modify` call, in source order. -/
def initProgOnceCell : List RegWrite :=
  [ (.wdtctl, fun _ => setBit 0x5A00 7),
    (.p1dir, fun r => setBit (setBit r 0) 6),
    (.p1out, fun r => clrBit (setBit r 0) 6),
    (.bcsctl3, fun r => setField r 4 2 2),
    (.bcsctl1, fun r => setField r 4 2 1),
    (.ta0ccr0, fun _ => 1200),
    (.ta0ctl, fun r => setField (setField r 8 2 1) 4 2 1),
    (.ta0cctl1, fun r => setBit r 4),
    (.ta0ccr1, fun _ => 600) ]

/-- The register writes of `main` in `timer-unsafe.rs` (lines 32-53), one list
element per source `write`/`modify` call, in source order. -/
def initProgUnsafe : List RegWrite :=
  [ (.wdtctl, fun _ => setBit 0x5A00 7),
    (.p1dir, fun r => setBit (setBit r 0) 6),
    (.p1out, fun r => clrBit (setBit r 0) 6),
    (.bcsctl3, fun r => setField r 4 2 2),
    (.bcsctl1, fun r => setField r 4 2 1),
    (.ta0ccr0, fun _ => 1200),
    (.ta0ctl, fun r => setField (setField r 8 2 1) 4 2 1),
    (.ta0cctl1, fun r => setBit r 4),
    (.ta0ccr1, fun _ => 600) ]

/-- The register writes of the `TIMER0_A1` handler in `timer-oncecell.rs`
(lines 85-90): clear the CCIFG flag (bit 0 of TA0CCTL1), then toggle P1OUT
bits 0 and 6. -/
def handlerProgOnceCell : List RegWrite :=
  [ (.ta0cctl1, fun r => clrBit r 0),
    (.p1out, fun r => assignBit (assignBit r 0 (! r.testBit 0)) 6 (! r.testBit 6)) ]

/-- The register writes of the `TIMER0_A1` handler in `timer-unsafe.rs`
(lines 70-75). -/
def handlerProgUnsafe : List RegWrite :=
  [ (.ta0cctl1, fun r => clrBit r 0),
    (.p1out, fun r => assignBit (assignBit r 0 (! r.testBit 0)) 6 (! r.testBit 6)) ]

/-- The device state DeviceInitializer leaves behind. -/
def initDevice (d : Device) : Device := runProg d initProgOnceCell

/-- The device-state effect of one `TIMER0_A1` handler invocation. -/
def handlerDevice (d : Device) : Device := runProg d handlerProgOnceCell

/-- Hardware raising the channel-1 compare-match: set CCIFG (bit 0 of
TA0CCTL1). -/
def raiseCcifg (d : Device) : Device := { d with ta0cctl1 := setBit d.ta0cctl1 0 }

/-- Modelled from the spec: the `msp430g2553::Peripherals` handle (the crate
is an external dependency, not part of this repository's sources).  The
PeripheralSet is a zero-size view of the register blocks; the registers
themselves live in `Device`. -/
inductive Peripherals where
  | mk
deriving Repr, DecidableEq

/-- Modelled from the spec: `Peripherals::take` (pattern A acquisition, not in
src/): a process-wide boolean latch is checked-and-set; the first call returns
the PeripheralSet, every later call returns the distinguishable failure
`none`.  The input is the latch before the call, the output pairs the latch
after the call with the result. -/
def Peripherals.take (taken : Bool) : Bool × Option Peripherals :=
  if taken then (true, none) else (true, some .mk)

/-- Run `n` successive `take` calls from latch state `t`, collecting the
results. -/
def runTakes : Bool → Nat → Bool × List (Option Peripherals)
  | t, 0 => (t, [])
  | t, n + 1 =>
    let s1 := Peripherals.take t
    let s2 := runTakes s1.1 n
    (s2.1, s1.2 :: s2.2)

/-- Modelled from the spec: `Peripherals::steal` (pattern B acquisition, not
in src/): unconditionally constructs the PeripheralSet view, with no failure
mode and no bookkeeping; the take latch is passed through untouched. -/
def Peripherals.steal (taken : Bool) : Bool × Peripherals :=
  (taken, .mk)

/-- Run `n` successive `steal` calls from latch state `t`, collecting the
results. -/
def runSteals : Bool → Nat → Bool × List Peripherals
  | t, 0 => (t, [])
  | t, n + 1 =>
    let s1 := Peripherals.steal t
    let s2 := runSteals s1.1 n
    (s2.1, s1.2 :: s2.2)

/-- Modelled from the spec: `once_cell::unsync::OnceCell::set` under the mask
token (GuardedCell.set; the once_cell crate is not in src/): on an empty cell
store the value and report success; on a filled cell leave the stored value
untouched and report the distinguishable already-initialized failure. -/
def OnceCell.set {α : Type} (c : Option α) (v : α) : Option α × Bool :=
  match c with
  | none => (some v, true)
  | some w => (some w, false)

/-- Modelled from the spec: `once_cell::unsync::OnceCell::get` under the mask
token (GuardedCell.get, not in src/): return the stored value if filled,
or the distinguishable not-yet-initialized result `none` if empty; the cell
state is not changed. -/
def OnceCell.get {α : Type} (c : Option α) : Option α := c

/-- A call made to the guarded cell. -/
inductive CellOp (α : Type) where
  | set (v : α)
  | get
deriving Repr

/-- The outcome observed for one cell call. -/
inductive CellOut (α : Type) where
  | setRes (ok : Bool)
  | getRes (r : Option α)
deriving Repr, DecidableEq

/-- Run a sequence of cell calls from cell state `c`, returning the final
cell state and the outcome of every call in order. -/
def runCell {α : Type} : Option α → List (CellOp α) → Option α × List (CellOut α)
  | c, [] => (c, [])
  | c, .get :: ops =>
    let s := runCell c ops
    (s.1, .getRes (OnceCell.get c) :: s.2)
  | c, .set v :: ops =>
    let s1 := OnceCell.set c v
    let s := runCell s1.1 ops
    (s.1, .setRes s1.2 :: s.2)

/-- Modelled from the spec: `msp430::interrupt::free` (the
InterruptMaskController's `runMasked`; the msp430 crate is not in src/).  It
captures the previous interrupt-enable flag, disables interrupts, invokes the
action while masked (the action receives the masked flag state and returns
its result together with whatever flag state it left behind), then restores
the flag to its captured pre-call state and returns the action's result. -/
def runMasked {α : Type} (action : Bool → α × Bool) (gie : Bool) : α × Bool :=
  let prev := gie
  let masked := false
  let s := action masked
  (s.1, prev)

/-- Main-context program counter for the pattern-A system: before publishing
the peripherals, after publishing, and in the steady-state loop. -/
inductive MainPC where
  | start
  | published
  | running
deriving Repr, DecidableEq

/-- Global state of the pattern-A (timer-oncecell) program: device registers,
the guarded cell, the interrupt-enable flag, the main-context program
counter, and whether the handler's `get().unwrap()` ever hit the empty
cell. -/
structure Sys where
  dev : Device
  cell : Option Peripherals
  gie : Bool
  pc : MainPC
  panicked : Bool
deriving Repr, DecidableEq

/-- Reset state of the pattern-A program: empty cell, interrupts masked
(hardware reset guarantee), main context at its first statement. -/
def initialSys : Sys :=
  ⟨resetDevice, none, false, .start, false⟩

/-- One step of the pattern-A program.  The main context initializes the
device and publishes the peripherals into the cell, then enables interrupts,
then loops over masked no-op sections.  The hardware may vector to the
`TIMER0_A1` handler only while the interrupt-enable flag is set; the handler
reads the cell, and hitting the empty cell would panic. -/
inductive SysStep : Sys → Sys → Prop
  | publish (s : Sys) (h : s.pc = .start) :
      SysStep s ⟨initDevice s.dev, (OnceCell.set s.cell Peripherals.mk).1,
                 s.gie, .published, s.panicked⟩
  | enable (s : Sys) (h : s.pc = .published) :
      SysStep s ⟨s.dev, s.cell, true, .running, s.panicked⟩
  | loopMasked (s : Sys) (h : s.pc = .running) :
      SysStep s ⟨s.dev, s.cell, (runMasked (fun m => ((), m)) s.gie).2,
                 s.pc, s.panicked⟩
  | interrupt (s : Sys) (h : s.gie = true) :
      SysStep s ⟨(match OnceCell.get s.cell with
                  | some _ => handlerDevice s.dev
                  | none => s.dev),
                 s.cell, s.gie, s.pc,
                 s.panicked || (OnceCell.get s.cell).isNone⟩

/-- The states the pattern-A program can reach from reset. -/
inductive SysReachable : Sys → Prop
  | base : SysReachable initialSys
  | step {s t : Sys} : SysReachable s → SysStep s t → SysReachable t

/-- The pattern-A state after the publish step. -/
def sysPublished : Sys :=
  ⟨initDevice resetDevice, some Peripherals.mk, false, .published, false⟩

/-- The pattern-A steady state right after interrupts are enabled. -/
def sysRunning : Sys :=
  ⟨initDevice resetDevice, some Peripherals.mk, true, .running, false⟩


theorem testBit_setBit (r i j : Nat) :
    (setBit r i).testBit j = if j = i then true else r.testBit j := by
  by_cases h : j = i
  · subst h
    simp [setBit, Nat.testBit_lor]
  · simp [setBit, Nat.testBit_lor, h, Nat.testBit_two_pow_of_ne (Ne.symm h)]

theorem testBit_maskClear (r m j : Nat) :
    (maskClear r m).testBit j = (r.testBit j && ! m.testBit j) := by
  simp only [maskClear, Nat.testBit_xor, Nat.testBit_land]
  cases r.testBit j <;> cases m.testBit j <;> rfl

theorem testBit_clrBit (r i j : Nat) :
    (clrBit r i).testBit j = if j = i then false else r.testBit j := by
  by_cases h : j = i
  · subst h
    simp [clrBit, testBit_maskClear]
  · simp [clrBit, testBit_maskClear, h, Nat.testBit_two_pow_of_ne (Ne.symm h)]

theorem testBit_assignBit (r i j : Nat) (b : Bool) :
    (assignBit r i b).testBit j = if j = i then b else r.testBit j := by
  cases b <;> simp [assignBit, testBit_setBit, testBit_clrBit]


theorem runProg_nil (d : Device) : runProg d [] = d := rfl

theorem runProg_cons (d : Device) (rw : RegWrite) (p : List RegWrite) :
    runProg d (rw :: p) = runProg (regStep d rw) p := rfl

theorem read_regStep (e : Device) (r x : Reg) (f : Nat → Nat) :
    Reg.read (regStep e (r, f)) x
      = if r = x then f (Reg.read e x) else Reg.read e x := by
  cases r <;> cases x <;> simp [regStep, Reg.read, Reg.store]

theorem read_wdtctl (e : Device) : Reg.read e Reg.wdtctl = e.wdtctl := rfl
theorem read_p1dir (e : Device) : Reg.read e Reg.p1dir = e.p1dir := rfl
theorem read_p1out (e : Device) : Reg.read e Reg.p1out = e.p1out := rfl
theorem read_bcsctl3 (e : Device) : Reg.read e Reg.bcsctl3 = e.bcsctl3 := rfl
theorem read_bcsctl1 (e : Device) : Reg.read e Reg.bcsctl1 = e.bcsctl1 := rfl
theorem read_ta0ccr0 (e : Device) : Reg.read e Reg.ta0ccr0 = e.ta0ccr0 := rfl
theorem read_ta0ctl (e : Device) : Reg.read e Reg.ta0ctl = e.ta0ctl := rfl
theorem read_ta0cctl1 (e : Device) : Reg.read e Reg.ta0cctl1 = e.ta0cctl1 := rfl
theorem read_ta0ccr1 (e : Device) : Reg.read e Reg.ta0ccr1 = e.ta0ccr1 := rfl

theorem initDevice_p1out (d : Device) :
    (initDevice d).p1out = clrBit (setBit d.p1out 0) 6 := by
  rw [← read_p1out]
  simp only [initDevice, initProgOnceCell, runProg_cons, runProg_nil]
  simp [read_regStep]
  simp [read_p1out]

theorem handlerDevice_p1out (d : Device) :
    (handlerDevice d).p1out =
      assignBit (assignBit d.p1out 0 (! d.p1out.testBit 0)) 6 (! d.p1out.testBit 6) := by
  rw [← read_p1out]
  simp only [handlerDevice, handlerProgOnceCell, runProg_cons, runProg_nil]
  simp [read_regStep]
  simp [read_p1out]

theorem handlerDevice_ta0cctl1 (d : Device) :
    (handlerDevice d).ta0cctl1 = clrBit d.ta0cctl1 0 := by
  rw [← read_ta0cctl1]
  simp only [handlerDevice, handlerProgOnceCell, runProg_cons, runProg_nil]
  simp [read_regStep]
  simp [read_ta0cctl1]

theorem handlerDevice_wdtctl (d : Device) : (handlerDevice d).wdtctl = d.wdtctl := by
  rw [← read_wdtctl, ← read_wdtctl d]
  simp only [handlerDevice, handlerProgOnceCell, runProg_cons, runProg_nil]
  simp [read_regStep]

theorem handlerDevice_p1dir (d : Device) : (handlerDevice d).p1dir = d.p1dir := by
  rw [← read_p1dir, ← read_p1dir d]
  simp only [handlerDevice, handlerProgOnceCell, runProg_cons, runProg_nil]
  simp [read_regStep]

theorem handlerDevice_bcsctl3 (d : Device) : (handlerDevice d).bcsctl3 = d.bcsctl3 := by
  rw [← read_bcsctl3, ← read_bcsctl3 d]
  simp only [handlerDevice, handlerProgOnceCell, runProg_cons, runProg_nil]
  simp [read_regStep]

theorem handlerDevice_bcsctl1 (d : Device) : (handlerDevice d).bcsctl1 = d.bcsctl1 := by
  rw [← read_bcsctl1, ← read_bcsctl1 d]
  simp only [handlerDevice, handlerProgOnceCell, runProg_cons, runProg_nil]
  simp [read_regStep]

theorem handlerDevice_ta0ccr0 (d : Device) : (handlerDevice d).ta0ccr0 = d.ta0ccr0 := by
  rw [← read_ta0ccr0, ← read_ta0ccr0 d]
  simp only [handlerDevice, handlerProgOnceCell, runProg_cons, runProg_nil]
  simp [read_regStep]

theorem handlerDevice_ta0ctl (d : Device) : (handlerDevice d).ta0ctl = d.ta0ctl := by
  rw [← read_ta0ctl, ← read_ta0ctl d]
  simp only [handlerDevice, handlerProgOnceCell, runProg_cons, runProg_nil]
  simp [read_regStep]

theorem handlerDevice_ta0ccr1 (d : Device) : (handlerDevice d).ta0ccr1 = d.ta0ccr1 := by
  rw [← read_ta0ccr1, ← read_ta0ccr1 d]
  simp only [handlerDevice, handlerProgOnceCell, runProg_cons, runProg_nil]
  simp [read_regStep]

theorem handlerDevice_p1out_testBit0 (d : Device) :
    (handlerDevice d).p1out.testBit 0 = ! d.p1out.testBit 0 := by
  rw [handlerDevice_p1out, testBit_assignBit, testBit_assignBit]
  norm_num

theorem handlerDevice_p1out_testBit6 (d : Device) :
    (handlerDevice d).p1out.testBit 6 = ! d.p1out.testBit 6 := by
  rw [handlerDevice_p1out, testBit_assignBit]
  norm_num

theorem raiseCcifg_p1out (d : Device) : (raiseCcifg d).p1out = d.p1out := rfl

/-- C3: starting from the state DeviceInitializer leaves behind (P1OUT bit 0
high, bit 6 low) with the channel-1 match-pending flag raised, one handler
invocation clears the CCIFG flag and complements both tracked output bits,
giving bit0 = 0, bit6 = 1; a second invocation (after the flag is raised
again) restores bit0 = 1, bit6 = 0. -/
theorem handler_clears_flag_and_toggles_outputs (d : Device) :
    (initDevice d).p1out.testBit 0 = true ∧
    (initDevice d).p1out.testBit 6 = false ∧
    (handlerDevice (raiseCcifg (initDevice d))).ta0cctl1.testBit 0 = false ∧
    (handlerDevice (raiseCcifg (initDevice d))).p1out.testBit 0 = false ∧
    (handlerDevice (raiseCcifg (initDevice d))).p1out.testBit 6 = true ∧
    (handlerDevice (raiseCcifg (handlerDevice (raiseCcifg (initDevice d))))).p1out.testBit 0
      = true ∧
    (handlerDevice (raiseCcifg (handlerDevice (raiseCcifg (initDevice d))))).p1out.testBit 6
      = false := by
  have h0 : (initDevice d).p1out.testBit 0 = true := by
    rw [initDevice_p1out, testBit_clrBit, testBit_setBit]
    norm_num
  have h6 : (initDevice d).p1out.testBit 6 = false := by
    rw [initDevice_p1out, testBit_clrBit]
    norm_num
  refine ⟨h0, h6, ?_, ?_, ?_, ?_, ?_⟩
  · rw [handlerDevice_ta0cctl1, testBit_clrBit]
    norm_num
  · rw [handlerDevice_p1out_testBit0, raiseCcifg_p1out, h0]
    decide
  · rw [handlerDevice_p1out_testBit6, raiseCcifg_p1out, h6]
    decide
  · rw [handlerDevice_p1out_testBit0, raiseCcifg_p1out,
        handlerDevice_p1out_testBit0, raiseCcifg_p1out, h0]
    decide
  · rw [handlerDevice_p1out_testBit6, raiseCcifg_p1out,
        handlerDevice_p1out_testBit6, raiseCcifg_p1out, h6]
    decide

/-- C4: from any initial state of the two tracked output bits, an even number
of handler invocations returns both bits to their initial values and an odd
number leaves them complemented: the handler's output effect is an
involution. -/
theorem handler_output_involution (n : Nat) (d : Device) :
    ((handlerDevice^[2 * n]) d).p1out.testBit 0 = d.p1out.testBit 0 ∧
    ((handlerDevice^[2 * n]) d).p1out.testBit 6 = d.p1out.testBit 6 ∧
    ((handlerDevice^[2 * n + 1]) d).p1out.testBit 0 = (! d.p1out.testBit 0) ∧
    ((handlerDevice^[2 * n + 1]) d).p1out.testBit 6 = (! d.p1out.testBit 6) := by
  induction n generalizing d with
  | zero =>
    refine ⟨rfl, rfl, ?_, ?_⟩
    · simpa using handlerDevice_p1out_testBit0 d
    · simpa using handlerDevice_p1out_testBit6 d
  | succ n ih =>
    have key : ∀ (k : Nat) (e : Device),
        (handlerDevice^[k + 2]) e
          = (handlerDevice^[k]) (handlerDevice (handlerDevice e)) := by
      intro k e
      rw [Function.iterate_succ_apply, Function.iterate_succ_apply]
    have e0 : (handlerDevice (handlerDevice d)).p1out.testBit 0 = d.p1out.testBit 0 := by
      rw [handlerDevice_p1out_testBit0, handlerDevice_p1out_testBit0, Bool.not_not]
    have e6 : (handlerDevice (handlerDevice d)).p1out.testBit 6 = d.p1out.testBit 6 := by
      rw [handlerDevice_p1out_testBit6, handlerDevice_p1out_testBit6, Bool.not_not]
    have hev : 2 * (n + 1) = 2 * n + 2 := by ring
    have hod : 2 * (n + 1) + 1 = (2 * n + 1) + 2 := by ring
    have ihd := ih (handlerDevice (handlerDevice d))
    refine ⟨?_, ?_, ?_, ?_⟩
    · rw [hev, key, ihd.1, e0]
    · rw [hev, key, ihd.2.1, e6]
    · rw [hod, key, ihd.2.2.1, e0]
    · rw [hod, key, ihd.2.2.2, e6]

/-- C8: the handler's only mutation of the timer configuration state is
clearing bit 0 (CCIFG) of TA0CCTL1: both compare registers, the timer control
register, the watchdog, GPIO direction and clock registers are unchanged, and
the CCIE bit (bit 4 of TA0CCTL1) is preserved. -/
theorem handler_touches_only_ccifg (d : Device) :
    (handlerDevice d).ta0ccr0 = d.ta0ccr0 ∧
    (handlerDevice d).ta0ccr1 = d.ta0ccr1 ∧
    (handlerDevice d).ta0ctl = d.ta0ctl ∧
    (handlerDevice d).wdtctl = d.wdtctl ∧
    (handlerDevice d).p1dir = d.p1dir ∧
    (handlerDevice d).bcsctl1 = d.bcsctl1 ∧
    (handlerDevice d).bcsctl3 = d.bcsctl3 ∧
    (handlerDevice d).ta0cctl1 = clrBit d.ta0cctl1 0 ∧
    (handlerDevice d).ta0cctl1.testBit 0 = false ∧
    (handlerDevice d).ta0cctl1.testBit 4 = d.ta0cctl1.testBit 4 := by
  refine ⟨handlerDevice_ta0ccr0 d, handlerDevice_ta0ccr1 d, handlerDevice_ta0ctl d,
    handlerDevice_wdtctl d, handlerDevice_p1dir d, handlerDevice_bcsctl1 d,
    handlerDevice_bcsctl3 d, handlerDevice_ta0cctl1 d, ?_, ?_⟩
  · rw [handlerDevice_ta0cctl1, testBit_clrBit]
    norm_num
  · rw [handlerDevice_ta0cctl1, testBit_clrBit]
    norm_num

/-- C10: the two examples are observationally equivalent at the register
level: the device-initialization programs and the handler programs of
`timer-oncecell.rs` and `timer-unsafe.rs` are identical, so from every device
state they produce the same write traces and the same final states; the
examples differ only in how the peripheral handle is obtained. -/
theorem patterns_register_equivalent :
    initProgOnceCell = initProgUnsafe ∧
    handlerProgOnceCell = handlerProgUnsafe ∧
    (∀ d : Device, progTrace d initProgOnceCell = progTrace d initProgUnsafe) ∧
    (∀ d : Device, progTrace d handlerProgOnceCell = progTrace d handlerProgUnsafe) ∧
    (∀ d : Device, runProg d initProgOnceCell = runProg d initProgUnsafe) ∧
    (∀ d : Device, runProg d handlerProgOnceCell = runProg d handlerProgUnsafe) :=
  ⟨rfl, rfl, fun _ => rfl, fun _ => rfl, fun _ => rfl, fun _ => rfl⟩

theorem runTakes_taken (n : Nat) :
    runTakes true n = (true, List.replicate n none) := by
  induction n with
  | zero => rfl
  | succ n ih => simp [runTakes, Peripherals.take, ih, List.replicate_succ]

theorem runCell_sets_filled (w : Peripherals) (vs : List Peripherals) :
    runCell (some w) (vs.map CellOp.set)
      = (some w, vs.map fun _ => CellOut.setRes false) := by
  induction vs with
  | nil => rfl
  | cons v vs ih => simp [runCell, OnceCell.set, ih]

/-- C1: the checked singleton acquisition and the guarded cell's set succeed
exactly on the first call of any call sequence: `take` returns the
PeripheralSet once and the distinguishable failure `none` on each of the `n`
later calls, and a sequence of `set` calls stores the first value, reports
success once, reports the distinguishable failure on every later call, and
never overwrites the stored value. -/
theorem take_and_set_succeed_only_once :
    (∀ n : Nat,
      runTakes false (n + 1)
        = (true, some Peripherals.mk :: List.replicate n none)) ∧
    (∀ (v : Peripherals) (vs : List Peripherals),
      runCell (none : Option Peripherals) ((v :: vs).map CellOp.set)
        = (some v, CellOut.setRes true :: vs.map fun _ => CellOut.setRes false)) := by
  constructor
  · intro n
    simp [runTakes, Peripherals.take, runTakes_taken]
  · intro v vs
    simp [runCell, OnceCell.set, runCell_sets_filled]

theorem runCell_state_filled (v : Peripherals) (ops : List (CellOp Peripherals)) :
    (runCell (some v) ops).1 = some v := by
  induction ops with
  | nil => rfl
  | cons op ops ih =>
    cases op with
    | get => simpa [runCell, OnceCell.get] using ih
    | set w => simpa [runCell, OnceCell.set] using ih

theorem runCell_outs_filled (v : Peripherals) (ops : List (CellOp Peripherals)) :
    ((runCell (some v) ops).2.all fun o =>
      match o with
      | CellOut.getRes r => r == some v
      | CellOut.setRes ok => ! ok) = true := by
  induction ops with
  | nil => rfl
  | cons op ops ih =>
    cases op with
    | get => simpa [runCell, OnceCell.get] using ih
    | set w => simpa [runCell, OnceCell.set] using ih

/-- C2: every `get` before any `set` observes the distinguishable
not-yet-initialized outcome `none`; after the one successful `set` of `v`
the cell state stays `some v` forever, every later `get` observes exactly
the stored `v`, and every later `set` fails. -/
theorem get_empty_then_stable_after_set :
    (∀ n : Nat,
      runCell (none : Option Peripherals) (List.replicate n CellOp.get)
        = (none, List.replicate n (CellOut.getRes none))) ∧
    (∀ (v : Peripherals) (ops : List (CellOp Peripherals)) (n : Nat),
      runCell none (List.replicate n CellOp.get ++ CellOp.set v :: ops)
        = ((runCell (some v) ops).1,
           List.replicate n (CellOut.getRes none)
             ++ CellOut.setRes true :: (runCell (some v) ops).2)) ∧
    (∀ (v : Peripherals) (ops : List (CellOp Peripherals)),
      (runCell (some v) ops).1 = some v) ∧
    (∀ (v : Peripherals) (ops : List (CellOp Peripherals)),
      ((runCell (some v) ops).2.all fun o =>
        match o with
        | CellOut.getRes r => r == some v
        | CellOut.setRes ok => ! ok) = true) := by
  refine ⟨?_, ?_, runCell_state_filled, runCell_outs_filled⟩
  · intro n
    induction n with
    | zero => rfl
    | succ n ih => simp [List.replicate_succ, runCell, OnceCell.get, ih]
  · intro v ops n
    induction n with
    | zero => simp [runCell, OnceCell.set]
    | succ n ih => simp [List.replicate_succ, runCell, OnceCell.get, ih]

/-- C5: a masked region restores the interrupt-enable flag to exactly its
pre-call state for every prior state and every inner action, including
actions that attempt to change the flag; a nested masked region entered
while already masked returns with the flag still masked (never unmasks
early). -/
theorem runMasked_restores_mask (α : Type) (g : Bool) (action : Bool → α × Bool) :
    (runMasked action g).2 = g ∧
    (runMasked action false).2 = false ∧
    (runMasked (fun m => (runMasked action m, (runMasked action m).2)) g).2 = g :=
  ⟨rfl, rfl, rfl⟩

/-- C7: `steal` succeeds unconditionally from any context: it returns a
PeripheralSet view (total, no failure result), keeps no bookkeeping (the
take latch is untouched), and any number of repeated calls all succeed. -/
theorem steal_always_succeeds (t : Bool) (n : Nat) :
    runSteals t n = (t, List.replicate n Peripherals.mk) := by
  induction n with
  | zero => rfl
  | succ n ih => simp [runSteals, Peripherals.steal, ih, List.replicate_succ]

theorem sys_invariant (s : Sys) (h : SysReachable s) :
    s.panicked = false ∧
    (s.gie = true → s.pc = MainPC.running) ∧
    (s.pc ≠ MainPC.start → s.cell.isSome = true) := by
  induction h with
  | base =>
    refine ⟨rfl, ?_, ?_⟩
    · intro hg
      cases hg
    · intro hp
      exact absurd rfl hp
  | @step u t hr hst ih =>
    cases hst with
    | publish hpc =>
      refine ⟨ih.1, ?_, ?_⟩
      · intro hg
        have hrun := ih.2.1 hg
        rw [hpc] at hrun
        cases hrun
      · intro _
        show (OnceCell.set u.cell Peripherals.mk).1.isSome = true
        cases hc : u.cell
        · simp [OnceCell.set]
        · simp [OnceCell.set]
    | enable hpc =>
      refine ⟨ih.1, fun _ => rfl, ?_⟩
      intro _
      refine ih.2.2 ?_
      rw [hpc]
      decide
    | loopMasked hpc =>
      exact ⟨ih.1, fun hg => ih.2.1 hg, ih.2.2⟩
    | interrupt hg =>
      have hrun := ih.2.1 hg
      have hsome : u.cell.isSome = true := by
        refine ih.2.2 ?_
        rw [hrun]
        decide
      refine ⟨?_, fun hg2 => ih.2.1 hg2, ih.2.2⟩
      show (u.panicked || (OnceCell.get u.cell).isNone) = false
      have hnone : (OnceCell.get u.cell).isNone = false := by
        cases hc : u.cell
        · rw [hc] at hsome
          cases hsome
        · simp [OnceCell.get]
      rw [ih.1, hnone]
      decide

/-- C9: in the pattern-A system every reachable state is panic-free and has
the guarded cell filled whenever interrupts are enabled: the publish step
runs strictly before the enable step, the handler fires only while the
interrupt-enable flag is set, so the handler's `get` never observes the
empty cell and the not-yet-initialized panic branch is unreachable. -/
theorem handler_never_sees_empty_cell (s : Sys) (h : SysReachable s) :
    s.panicked = false ∧ (s.gie = true → s.cell.isSome = true) :=
  ⟨(sys_invariant s h).1, fun hg =>
    (sys_invariant s h).2.2 (by
      rw [(sys_invariant s h).2.1 hg]
      decide)⟩

theorem handler_never_sees_empty_cell_witness :
    sysRunning.panicked = false ∧ (sysRunning.gie = true → sysRunning.cell.isSome = true) :=
  handler_never_sees_empty_cell sysRunning
    (SysReachable.step
      (SysReachable.step SysReachable.base
        (SysStep.publish initialSys rfl : SysStep initialSys sysPublished))
      (SysStep.enable sysPublished rfl : SysStep sysPublished sysRunning))
